import Mathlib

/-!
# Verification of `react-netlify-identity` (src/index2.tsx)

Shallow embedding of the identity-provider wrapper hook in Lean 4.
The hook wraps the external `gotrue-js` backend client; backend calls are
modelled as explicit parameters (their resolved or rejected results), and
each facade operation is embedded as a pure function from the hook state
and the backend result to an outcome: either a synchronous throw, or an
async completion (resolved or rejected) together with the ordered list of
observable events (backend invocations, state-slot writes, listener
invocations, network fetches) and the resulting hook state.

JS truthiness of optional string fields (`undefined` or `""` are falsy) is
modelled by `truthyStr` on `Option String`.
-/

namespace RNI

/-- JS truthiness of a string-or-undefined value: absent and `""` are falsy. -/
def truthyStr : Option String → Bool
  | none => false
  | some s => !s.data.isEmpty

/-- The access-token record carried by a gotrue `User` (`user.token`);
only the field the wrapper reads. -/
structure Token where
  access_token : Option String
deriving Repr, DecidableEq

/-- The slice of a gotrue `User` that the wrapper reads: the confirmation
timestamp (`confirmed_at`), the token record and an identifying email. -/
structure User where
  email : String
  confirmed_at : Option String
  token : Option Token
deriving Repr, DecidableEq

/-- The per-social-provider enablement map inside `Settings`
(`defaultSettings.external` in index2.tsx). -/
structure ExternalSettings where
  bitbucket : Bool
  email : Bool
  facebook : Bool
  github : Bool
  gitlab : Bool
  google : Bool
deriving Repr, DecidableEq

/-- Provider settings (`Settings`): auto-confirm flag, signup-disabled flag
and the social-provider map. -/
structure Settings where
  autoconfirm : Bool
  disable_signup : Bool
  external : ExternalSettings
deriving Repr, DecidableEq

/-- `defaultSettings` of index2.tsx: signup open, auto-confirm off, only the
email provider enabled. -/
def defaultSettings : Settings :=
  { autoconfirm := false
    disable_signup := false
    external :=
      { bitbucket := false
        email := true
        facebook := false
        github := false
        gitlab := false
        google := false } }

/-- The error-message table (`errors` in index2.tsx). -/
def errors.noTokenFound : String := "no user token found"

/-- The error-message table (`errors` in index2.tsx). -/
def errors.noUserFound : String := "No current user found - are you logged in?"

/-- The flow types a `TokenParam.type` can carry (index2.tsx `TokenParam`). -/
inductive TokenType where
  | confirmation
  | invite
  | recovery
  | email_change
  | access
deriving Repr, DecidableEq

/-- `TokenParam` of index2.tsx: the classified auth-flow signal. `error` is
the literal string (only ever "access_denied") and `status` the numeric
status (only ever 403). -/
structure TokenParam where
  token : Option String
  type : Option TokenType
  error : Option String
  status : Option Nat
deriving Repr, DecidableEq

/-- `defaultParam` of index2.tsx: no token, no type (and no error/status). -/
def defaultParam : TokenParam :=
  { token := none, type := none, error := none, status := none }

/-- The reactive state held by the hook: the current user slot, the stored
`TokenParam` and the settings cache. -/
structure HookState where
  user : Option User
  param : TokenParam
  settings : Settings
deriving Repr, DecidableEq

/-- The initial hook state: user restored from the backend session (if any),
`defaultParam`, `defaultSettings` (index2.tsx lines 148-151, 169). -/
def initialState (persisted : Option User) : HookState :=
  { user := persisted, param := defaultParam, settings := defaultSettings }

/-- Observable events emitted while an operation executes, in order. -/
inductive Event where
  | backendSignup (email password : String)
  | backendLogin (email password : String) (remember : Bool)
  | backendLogout
  | backendRecover (token : String) (remember : Option Bool)
  | backendUpdate
  | backendJwt
  | backendRequestRecovery (email : String)
  | backendConfirm (token : String)
  | backendAccessParse (hash : String)
  | setSlot (u : Option User)
  | listener (u : Option User)
  | networkFetch (endpoint method : String) (headers : List (String × String))
deriving Repr, DecidableEq

/-- `_setUser` (index2.tsx lines 153-157): writes the slot, then invokes the
caller-supplied auth-change listener with the same value; returns the value. -/
def setUserEvents (u : Option User) : List Event :=
  [Event.setSlot u, Event.listener u]

/-- Outcome of a facade operation: a synchronous throw (nothing executed),
or an async completion carrying the emitted events, the final state and
either the resolved value or the rejection message. -/
inductive Outcome (α : Type) where
  | syncThrow (msg : String)
  | resolved (events : List Event) (st : HookState) (val : α)
  | rejected (events : List Event) (st : HookState) (msg : String)
deriving Repr

/-- Whether an outcome is a synchronous throw with a given message. -/
def Outcome.isSyncThrow {α : Type} : Outcome α → Bool
  | .syncThrow _ => true
  | _ => false

/-- The events emitted by an outcome (empty for a synchronous throw). -/
def Outcome.events {α : Type} : Outcome α → List Event
  | .syncThrow _ => []
  | .resolved es _ _ => es
  | .rejected es _ _ => es

/-! ## Operation facade (index2.tsx lines 193-256) -/

/-- `signupUser`: `goTrueInstance.signup(email, password, data).then(_setUser)`. -/
def signupUser (st : HookState) (email password : String)
    (backend : Except String User) : Outcome (Option User) :=
  match backend with
  | .error e => .rejected [Event.backendSignup email password] st e
  | .ok u =>
      .resolved (Event.backendSignup email password :: setUserEvents (some u))
        { st with user := some u } (some u)

/-- `loginUser`: `goTrueInstance.login(email, password, remember).then(_setUser)`. -/
def loginUser (st : HookState) (email password : String) (remember : Bool)
    (backend : Except String User) : Outcome (Option User) :=
  match backend with
  | .error e => .rejected [Event.backendLogin email password remember] st e
  | .ok u =>
      .resolved (Event.backendLogin email password remember :: setUserEvents (some u))
        { st with user := some u } (some u)

/-- `requestPasswordRecovery`: plain delegation, no state change. -/
def requestPasswordRecovery (st : HookState) (email : String)
    (backend : Except String Unit) : Outcome Unit :=
  match backend with
  | .error e => .rejected [Event.backendRequestRecovery email] st e
  | .ok _ => .resolved [Event.backendRequestRecovery email] st ()

/-- `recoverAccount` (index2.tsx lines 210-214):
`goTrueInstance.recover(token, remember)` — delegation only; the result is
NOT piped through `_setUser`. -/
def recoverAccount (st : HookState) (token : String) (remember : Option Bool)
    (backend : Except String User) : Outcome User :=
  match backend with
  | .error e => .rejected [Event.backendRecover token remember] st e
  | .ok u => .resolved [Event.backendRecover token remember] st u

/-- `updateUser` (index2.tsx lines 216-227): throws synchronously when no
user is set, otherwise `user.update(fields).then(_setUser)`. -/
def updateUser (st : HookState) (backend : Except String User) :
    Outcome (Option User) :=
  match st.user with
  | none => .syncThrow errors.noUserFound
  | some _ =>
      match backend with
      | .error e => .rejected [Event.backendUpdate] st e
      | .ok u =>
          .resolved (Event.backendUpdate :: setUserEvents (some u))
            { st with user := some u } (some u)

/-- `getFreshJWT` (index2.tsx lines 229-232): throws synchronously when no
user is set, otherwise `user.jwt()` — no state change. -/
def getFreshJWT (st : HookState) (backend : Except String String) :
    Outcome String :=
  match st.user with
  | none => .syncThrow errors.noUserFound
  | some _ =>
      match backend with
      | .error e => .rejected [Event.backendJwt] st e
      | .ok s => .resolved [Event.backendJwt] st s

/-- `logoutUser` (index2.tsx lines 234-237): throws synchronously when no
user is set, otherwise `user.logout().then(() => _setUser(undefined))` —
the slot is cleared only after the backend logout resolves. -/
def logoutUser (st : HookState) (backend : Except String Unit) :
    Outcome (Option User) :=
  match st.user with
  | none => .syncThrow errors.noUserFound
  | some _ =>
      match backend with
      | .error e => .rejected [Event.backendLogout] st e
      | .ok _ =>
          .resolved (Event.backendLogout :: setUserEvents none)
            { st with user := none } none

/-! ## Derived flags (index2.tsx lines 273-274) -/

/-- `isLoggedIn: !!user`. -/
def isLoggedIn (u : Option User) : Bool := u.isSome

/-- `isConfirmedUser: !!(user && user.confirmed_at)`. -/
def isConfirmedUser (u : Option User) : Bool :=
  match u with
  | none => false
  | some usr => truthyStr usr.confirmed_at

/-- `_settings().then(setSettings)` (index2.tsx lines 171-173): when the
one-shot settings fetch resolves with `s`, only the settings slot changes. -/
def resolveSettings (st : HookState) (s : Settings) : HookState :=
  { st with settings := s }

/-! ## Authenticated fetch (index2.tsx lines 239-266) -/

/-- The caller-supplied request options object `obj` of
`genericAuthedFetch`: only the top-level keys that interact with the
defaults (`Object.assign` merges top-level keys only). Headers are an
association list of header-name/value pairs. -/
structure RequestObj where
  method : Option String
  headers : Option (List (String × String))
deriving Repr, DecidableEq

/-- The empty options object (the `obj = {}` default argument). -/
def RequestObj.empty : RequestObj := { method := none, headers := none }

/-- Header lookup in an association list (JS property access on the
headers object). -/
def lookupHeader (hs : List (String × String)) (k : String) : Option String :=
  (hs.find? (fun p => p.fst == k)).map (fun p => p.snd)

/-- The `defaultObj.headers` built by `genericAuthedFetch`: Accept and
Content-Type set to JSON and a bearer Authorization header. -/
def defaultHeaders (accessToken : String) : List (String × String) :=
  [("Accept", "application/json"),
   ("Content-Type", "application/json"),
   ("Authorization", "Bearer " ++ accessToken)]

/-- Whether the response is JSON-parsed or returned raw
(`finalObj.headers[Content-Type] === application/json ? res.json() : res`). -/
inductive FetchResult where
  | jsonParsed
  | raw
deriving Repr, DecidableEq

/-- `genericAuthedFetch(method)(endpoint, obj)` (index2.tsx lines 239-256):
throws `errors.noTokenFound` synchronously unless a user with a truthy
`token.access_token` is set; otherwise builds `finalObj` by
`Object.assign` of the default object, the method and `obj` — a SHALLOW
top-level merge, so
an `obj` that carries its own `headers` key replaces the default headers
(bearer token included) wholesale — and delegates to `fetch`. -/
def genericAuthedFetch (st : HookState) (method endpoint : String)
    (obj : RequestObj) : Outcome FetchResult :=
  match st.user with
  | none => .syncThrow errors.noTokenFound
  | some u =>
      match u.token with
      | none => .syncThrow errors.noTokenFound
      | some tok =>
          match tok.access_token with
          | none => .syncThrow errors.noTokenFound
          | some at_ =>
              if at_.data.isEmpty then .syncThrow errors.noTokenFound
              else
                let finalHeaders := obj.headers.getD (defaultHeaders at_)
                let finalMethod := obj.method.getD method
                .resolved [Event.networkFetch endpoint finalMethod finalHeaders] st
                  (if lookupHeader finalHeaders "Content-Type" == some "application/json"
                   then FetchResult.jsonParsed else FetchResult.raw)

/-- `authedFetch.get` (index2.tsx line 260). -/
def authedFetch.get (st : HookState) (endpoint : String) (obj : RequestObj) :
    Outcome FetchResult := genericAuthedFetch st "GET" endpoint obj

/-- `authedFetch.post` (index2.tsx line 261). -/
def authedFetch.post (st : HookState) (endpoint : String) (obj : RequestObj) :
    Outcome FetchResult := genericAuthedFetch st "POST" endpoint obj

/-- `authedFetch.put` (index2.tsx line 262). -/
def authedFetch.put (st : HookState) (endpoint : String) (obj : RequestObj) :
    Outcome FetchResult := genericAuthedFetch st "PUT" endpoint obj

/-- `authedFetch.delete` (index2.tsx line 263). -/
def authedFetch.delete (st : HookState) (endpoint : String) (obj : RequestObj) :
    Outcome FetchResult := genericAuthedFetch st "DELETE" endpoint obj

/-! ## URL/token parser and flow router

`runRoutes` is imported from `./runRoutes`, a module of this repository that
is not among the sources; the parser and router below are modelled from the
spec (sections 4.1 and 4.2). Locations are modelled by the auth-relevant
portion of the page location (the fragment/query string); all string
primitives are defined over `List Char` so they reduce in the kernel. -/

/-- Kernel-reducible list version of startsWith: does the second list start
with the first? -/
def listStartsWith : List Char → List Char → Bool
  | [], _ => true
  | _ :: _, [] => false
  | p :: ps, c :: cs => p == c && listStartsWith ps cs

/-- Does `loc` start with `marker`? -/
def strStartsWith (loc marker : String) : Bool :=
  listStartsWith marker.data loc.data

/-- Take characters up to (excluding) the next parameter separator. -/
def takeUntilAmp : List Char → List Char
  | [] => []
  | c :: cs => if c == '&' then [] else c :: takeUntilAmp cs

/-- The parameter value following a marker: the rest of the location after
the marker, up to the next parameter separator. -/
def valueAfter (loc marker : String) : String :=
  String.mk (takeUntilAmp (loc.data.drop marker.data.length))

/-- Modelled from the spec: the flow markers the parser recognizes in the
location fragment, in precedence order (spec 4.1: first recognized flow
type wins). -/
def flowMarkers : List (String × TokenType) :=
  [("#confirmation_token=", TokenType.confirmation),
   ("#invite_token=", TokenType.invite),
   ("#recovery_token=", TokenType.recovery),
   ("#email_change_token=", TokenType.email_change),
   ("#access_token=", TokenType.access)]

/-- The classified auth-flow signal produced by the parser. -/
inductive FlowSignal where
  | flow (t : TokenType) (token : String)
  | accessDenied
  | nothing
deriving Repr, DecidableEq

/-- First flow marker (with its token value) matching the location. -/
def findMarker : List (String × TokenType) → String → Option (TokenType × String)
  | [], _ => none
  | (m, t) :: rest, loc =>
      if strStartsWith loc m then some (t, valueAfter loc m)
      else findMarker rest loc

/-- Modelled from the spec: the URL/token parser (spec 4.1, part of the
missing `runRoutes` module). A location carrying `error=access_denied` is
classified as an access-denied signal; otherwise the first recognized
token marker wins; otherwise no flow is detected. Pure function of the
location string. -/
def parseLocation (loc : String) : FlowSignal :=
  if strStartsWith loc "#error=access_denied" then FlowSignal.accessDenied
  else
    match findMarker flowMarkers loc with
    | some (t, tok) => FlowSignal.flow t tok
    | none => FlowSignal.nothing

/-- Does the location contain a recognized flow marker at all? -/
def hasRecognizedMarker (loc : String) : Bool :=
  strStartsWith loc "#error=access_denied"
    || flowMarkers.any (fun m => strStartsWith loc m.fst)

/-- The `TokenParam` corresponding to a parsed flow signal (spec 4.1:
access-denied yields type undefined, error access_denied, status 403). -/
def signalToParam : FlowSignal → TokenParam
  | FlowSignal.flow t tok =>
      { token := some tok, type := some t, error := none, status := none }
  | FlowSignal.accessDenied =>
      { token := none, type := none, error := some "access_denied", status := some 403 }
  | FlowSignal.nothing => defaultParam

/-- Result of one run of the flow router: the returned `TokenParam`, the
emitted events, the value passed to the state setter (when it was called)
and the visible location after stripping consumed parameters. -/
structure RoutesResult where
  param : TokenParam
  events : List Event
  userUpdate : Option (Option User)
  newLoc : String
deriving Repr, DecidableEq

/-- Modelled from the spec: the flow router `runRoutes` (spec 4.2, missing
`./runRoutes` module). Parses the location; confirmation/invite/email-change
tokens are applied via the backend token-confirmation entry point and the
resulting user is fed to the state setter; an access fragment is parsed by
the backend which supplies a user, fed to the setter; a recovery token is
only surfaced in the returned param; access-denied is surfaced with no
backend call. Regardless of branch, consumed parameters are stripped from
the visible location. The backend results are the `confirmUser` /
`accessUser` parameters. -/
def runRoutes (loc : String) (confirmUser accessUser : User) : RoutesResult :=
  match parseLocation loc with
  | FlowSignal.flow TokenType.confirmation tok =>
      { param := signalToParam (FlowSignal.flow TokenType.confirmation tok)
        events := Event.backendConfirm tok :: setUserEvents (some confirmUser)
        userUpdate := some (some confirmUser)
        newLoc := "" }
  | FlowSignal.flow TokenType.invite tok =>
      { param := signalToParam (FlowSignal.flow TokenType.invite tok)
        events := Event.backendConfirm tok :: setUserEvents (some confirmUser)
        userUpdate := some (some confirmUser)
        newLoc := "" }
  | FlowSignal.flow TokenType.email_change tok =>
      { param := signalToParam (FlowSignal.flow TokenType.email_change tok)
        events := Event.backendConfirm tok :: setUserEvents (some confirmUser)
        userUpdate := some (some confirmUser)
        newLoc := "" }
  | FlowSignal.flow TokenType.recovery tok =>
      { param := signalToParam (FlowSignal.flow TokenType.recovery tok)
        events := []
        userUpdate := none
        newLoc := "" }
  | FlowSignal.flow TokenType.access tok =>
      { param := signalToParam (FlowSignal.flow TokenType.access tok)
        events := Event.backendAccessParse loc :: setUserEvents (some accessUser)
        userUpdate := some (some accessUser)
        newLoc := "" }
  | FlowSignal.accessDenied =>
      { param := signalToParam FlowSignal.accessDenied
        events := []
        userUpdate := none
        newLoc := "" }
  | FlowSignal.nothing =>
      { param := defaultParam
        events := []
        userUpdate := none
        newLoc := loc }

/-- The guard of the mount effect (index2.tsx lines 159-167):
`if (param.token || param.error) setParam(param)`. -/
def paramGuard (p : TokenParam) : Bool :=
  truthyStr p.token || truthyStr p.error

/-- The stored reactive `TokenParam` after the mount effect: updated to the
router's param only when the guard passes, otherwise left at the initial
default (index2.tsx lines 151, 159-167). -/
def mountParam (routed : TokenParam) : TokenParam :=
  if paramGuard routed then routed else defaultParam

/-- Number of backend token-confirmation calls in an event list. -/
def countConfirm (es : List Event) : Nat :=
  es.countP (fun e => match e with | Event.backendConfirm _ => true | _ => false)

/-- Number of auth-change listener invocations in an event list. -/
def countListener (es : List Event) : Nat :=
  es.countP (fun e => match e with | Event.listener _ => true | _ => false)

/-! ## URL validation (index2.tsx lines 299-303)

`validateUrl` tests the input against one large case-insensitive regex.
The regex is embedded as an AST and matched with a fuelled backtracking
matcher; boolean match existence is independent of backtracking order, and
negative lookahead is zero-width and deterministic, so the fuelled matcher
agrees with the JS regex engine on whether the whole string matches. -/

/-- Regex AST: empty, character class, concatenation, alternation, Kleene
star, option, and zero-width negative lookahead. -/
inductive Regex where
  | eps
  | cls (p : Char → Bool)
  | cat (r s : Regex)
  | alt (r s : Regex)
  | star (r : Regex)
  | opt (r : Regex)
  | nla (r : Regex)

/-- Fuelled backtracking matcher in continuation style: does `r` match a
prefix of `s` such that the continuation accepts the remainder? -/
def rmatch : Nat → Regex → List Char → (List Char → Bool) → Bool
  | 0, _, _, _ => false
  | _ + 1, Regex.eps, s, k => k s
  | _ + 1, Regex.cls p, s, k =>
      match s with
      | [] => false
      | c :: cs => p c && k cs
  | f + 1, Regex.cat r1 r2, s, k => rmatch f r1 s (fun s1 => rmatch f r2 s1 k)
  | f + 1, Regex.alt r1 r2, s, k => rmatch f r1 s k || rmatch f r2 s k
  | f + 1, Regex.star r, s, k =>
      rmatch f r s (fun s1 => rmatch f (Regex.star r) s1 k) || k s
  | f + 1, Regex.opt r, s, k => rmatch f r s k || k s
  | f + 1, Regex.nla r, s, k => !(rmatch f r s (fun _ => true)) && k s

/-- A literal character, case-insensitively (the regex carries the `i` flag). -/
def ichr (c : Char) : Regex := Regex.cls (fun a => a.toLower == c)

/-- A literal string, case-insensitively. -/
def rstr (s : String) : Regex :=
  s.data.foldr (fun c r => Regex.cat (ichr c) r) Regex.eps

/-- `\d`. -/
def rdigit : Regex := Regex.cls Char.isDigit

/-- `\S`. -/
def rnonSpace : Regex := Regex.cls (fun c => !c.isWhitespace)

/-- A digit range such as `[1-9]` or `[0-3]`. -/
def digitRange (lo hi : Char) : Regex :=
  Regex.cls (fun c => lo ≤ c && c ≤ hi)

/-- `r+` = `r r*`. -/
def rplus (r : Regex) : Regex := Regex.cat r (Regex.star r)

/-- `r r` (counted repetition of 2). -/
def rep2 (r : Regex) : Regex := Regex.cat r r

/-- `r r r` (counted repetition of 3). -/
def rep3 (r : Regex) : Regex := Regex.cat r (Regex.cat r r)

/-- `\d{1,3}` = `\d \d? \d?`. -/
def d13 : Regex := Regex.cat rdigit (Regex.cat (Regex.opt rdigit) (Regex.opt rdigit))

/-- `(?:(?:https?|ftp):)?` — optional scheme and colon. -/
def schemePart : Regex :=
  Regex.opt (Regex.cat
    (Regex.alt (Regex.cat (rstr "http") (Regex.opt (ichr 's'))) (rstr "ftp"))
    (ichr ':'))

/-- `(?:\S+(?::\S*)?@)?` — optional userinfo. -/
def userinfoPart : Regex :=
  Regex.opt (Regex.cat (rplus rnonSpace)
    (Regex.cat (Regex.opt (Regex.cat (ichr ':') (Regex.star rnonSpace)))
      (ichr '@')))

/-- `(?!(?:10|127)(?:\.\d{1,3}){3})`. -/
def ipLookahead1 : Regex :=
  Regex.nla (Regex.cat (Regex.alt (rstr "10") (rstr "127"))
    (rep3 (Regex.cat (ichr '.') d13)))

/-- `(?!(?:169\.254|192\.168)(?:\.\d{1,3}){2})`. -/
def ipLookahead2 : Regex :=
  Regex.nla (Regex.cat (Regex.alt (rstr "169.254") (rstr "192.168"))
    (rep2 (Regex.cat (ichr '.') d13)))

/-- `(?!172\.(?:1[6-9]|2\d|3[0-1])(?:\.\d{1,3}){2})`. -/
def ipLookahead3 : Regex :=
  Regex.nla (Regex.cat (rstr "172.")
    (Regex.cat
      (Regex.alt (Regex.cat (ichr '1') (digitRange '6' '9'))
        (Regex.alt (Regex.cat (ichr '2') rdigit)
          (Regex.cat (ichr '3') (digitRange '0' '1'))))
      (rep2 (Regex.cat (ichr '.') d13))))

/-- `(?:[1-9]\d?|1\d\d|2[01]\d|22[0-3])` — first IPv4 octet. -/
def firstOctet : Regex :=
  Regex.alt (Regex.cat (digitRange '1' '9') (Regex.opt rdigit))
    (Regex.alt (Regex.cat (ichr '1') (Regex.cat rdigit rdigit))
      (Regex.alt (Regex.cat (ichr '2') (Regex.cat (digitRange '0' '1') rdigit))
        (Regex.cat (rstr "22") (digitRange '0' '3'))))

/-- `(?:1?\d{1,2}|2[0-4]\d|25[0-5])` — middle IPv4 octet body. -/
def midOctet : Regex :=
  Regex.alt (Regex.cat (Regex.opt (ichr '1')) (Regex.cat rdigit (Regex.opt rdigit)))
    (Regex.alt (Regex.cat (ichr '2') (Regex.cat (digitRange '0' '4') rdigit))
      (Regex.cat (rstr "25") (digitRange '0' '5')))

/-- `(?:[1-9]\d?|1\d\d|2[0-4]\d|25[0-4])` — last IPv4 octet body. -/
def lastOctet : Regex :=
  Regex.alt (Regex.cat (digitRange '1' '9') (Regex.opt rdigit))
    (Regex.alt (Regex.cat (ichr '1') (Regex.cat rdigit rdigit))
      (Regex.alt (Regex.cat (ichr '2') (Regex.cat (digitRange '0' '4') rdigit))
        (Regex.cat (rstr "25") (digitRange '0' '4'))))

/-- The IPv4-host alternative with its private-range negative lookaheads. -/
def ipHost : Regex :=
  Regex.cat ipLookahead1 (Regex.cat ipLookahead2 (Regex.cat ipLookahead3
    (Regex.cat firstOctet
      (Regex.cat (rep2 (Regex.cat (ichr '.') midOctet))
        (Regex.cat (ichr '.') lastOctet)))))

/-- `[a-z¡-￿0-9]` under the `i` flag: an ASCII letter, a digit, or
a code point in U+00A1..U+FFFF. -/
def hostChar : Regex :=
  Regex.cls (fun c =>
    (('a' ≤ c.toLower && c.toLower ≤ 'z') || c.isDigit
      || (0xa1 ≤ c.val && c.val ≤ 0xffff)))

/-- `[a-z¡-￿]` under the `i` flag (no digits). -/
def tldChar : Regex :=
  Regex.cls (fun c =>
    (('a' ≤ c.toLower && c.toLower ≤ 'z') || (0xa1 ≤ c.val && c.val ≤ 0xffff)))

/-- `(?:(?:[a-z¡-￿0-9]-*)*[a-z¡-￿0-9]+)` — a host label. -/
def hostLabel : Regex :=
  Regex.cat (Regex.star (Regex.cat hostChar (Regex.star (ichr '-'))))
    (rplus hostChar)

/-- The named-host alternative: labels separated by dots, ending in a
letters-only TLD of length at least 2. -/
def namedHost : Regex :=
  Regex.cat hostLabel
    (Regex.cat (Regex.star (Regex.cat (ichr '.') hostLabel))
      (Regex.cat (ichr '.') (Regex.cat tldChar (rplus tldChar))))

/-- `(?::\d{2,5})?` — optional port. -/
def portPart : Regex :=
  Regex.opt (Regex.cat (ichr ':')
    (Regex.cat rdigit (Regex.cat rdigit
      (Regex.cat (Regex.opt rdigit) (Regex.cat (Regex.opt rdigit) (Regex.opt rdigit))))))

/-- `(?:[/?#]\S*)?` — optional path/query/fragment. -/
def pathPart : Regex :=
  Regex.opt (Regex.cat
    (Regex.cls (fun c => c == '/' || c == '?' || c == '#'))
    (Regex.star rnonSpace))

/-- The full anchored regex of `validateUrl` (index2.tsx line 300). -/
def urlRegex : Regex :=
  Regex.cat (Regex.cat schemePart (Regex.cat (ichr '/') (ichr '/')))
    (Regex.cat userinfoPart
      (Regex.cat (Regex.alt ipHost namedHost)
        (Regex.cat portPart pathPart)))

/-- `validateUrl` (index2.tsx lines 299-303): full-string match of the URL
regex. The fuel bounds the backtracking depth and is generous. -/
def validateUrl (value : String) : Bool :=
  rmatch (1000 + 20 * value.length) urlRegex value.data (fun s => s.isEmpty)

/-- The setup guard of `IdentityContextProvider` (index2.tsx lines 118-126):
`if (!url || !validateUrl(url)) throw ...`, before any state exists. -/
def providerSetup (url : String) : Except String Unit :=
  if url.data.isEmpty || !validateUrl url then
    Except.error ("invalid netlify instance URL: " ++ url
      ++ ". Please check the docs for proper usage or file an issue.")
  else Except.ok ()

/-- Modelled from the spec: "a syntactically valid absolute URL"
(spec section 6) — an absolute URL begins with a scheme (a letter followed
by letters, digits, plus, hyphen or dot), then a colon, then a non-empty
remainder (RFC 3986 absolute-URI shape). Stated here from the spec's words
to compare against the source's `validateUrl`. -/
def isAbsoluteUrlSpec (s : String) : Bool :=
  let scheme := s.data.takeWhile (fun c => c ≠ ':')
  let rest := s.data.drop (scheme.length + 1)
  decide (scheme.length < s.data.length)
    && !scheme.isEmpty
    && (match scheme with
        | [] => false
        | c :: cs =>
            c.isAlpha
              && cs.all (fun a => a.isAlpha || a.isDigit || a == '+' || a == '-' || a == '.'))
    && !rest.isEmpty

/-! ## Derived helpers for theorem statements -/

/-- The live access token of the current user, when the truthiness check of
`genericAuthedFetch` (`!user || !user.token || !user.token.access_token`)
passes: `none` exactly when that guard throws. -/
def liveAccessToken : Option User → Option String
  | none => none
  | some usr =>
      match usr.token with
      | none => none
      | some tk =>
          match tk.access_token with
          | none => none
          | some s => if s.data.isEmpty then none else some s

/-- A sample confirmed, token-bearing user for concrete witnesses. -/
def uSample : User :=
  { email := "user@example.com"
    confirmed_at := some "2020-01-01T00:00:00Z"
    token := some { access_token := some "jwt123" } }

/-- A sample unconfirmed, tokenless user. -/
def uSample2 : User :=
  { email := "other@example.com", confirmed_at := none, token := none }

/-- Request options carrying their own headers (no Authorization inside). -/
def customHeaderObj : RequestObj :=
  { method := none, headers := some [("Accept", "text/plain")] }

/-- A location with no recognized flow marker leaves the parse empty. -/
theorem parseLocation_of_no_marker (loc : String)
    (h : hasRecognizedMarker loc = false) :
    parseLocation loc = FlowSignal.nothing := by
  simp only [hasRecognizedMarker, flowMarkers, List.any, Bool.or_eq_false_iff,
    Bool.or_eq_false_eq_eq_false_and_eq_false] at h
  obtain ⟨h0, h1, h2, h3, h4, h5, -⟩ := h
  simp [parseLocation, findMarker, flowMarkers, h0, h1, h2, h3, h4, h5]

/-- The parse of the empty (fully stripped) location is empty. -/
theorem parseLocation_empty : parseLocation "" = FlowSignal.nothing := by decide

end RNI

namespace RNI

/-- C10: the derived flag `isLoggedIn` is true exactly when a current user
is set, and `isConfirmedUser` exactly when a current user is set and its
`confirmed_at` timestamp is present (a JS-truthy, i.e. non-empty, string
field); both are pure functions of the stored user — they are total Lean
functions of the user slot alone. -/
theorem C10_derived_flags (u : Option User) :
    (isLoggedIn u = true ↔ u.isSome = true)
      ∧ (isConfirmedUser u = true ↔
          ∃ usr, u = some usr ∧ truthyStr usr.confirmed_at = true) := by
  constructor
  · simp [isLoggedIn]
  · cases u with
    | none => simp [isConfirmedUser]
    | some usr => simp [isConfirmedUser]

/-- C8: the exposed settings start at the conservative default — signup open
(`disable_signup` false), auto-confirm off, only the email provider enabled —
and resolving the one-shot settings fetch replaces exactly the settings
slot, leaving the user slot and the stored param untouched. -/
theorem C8_settings (st : HookState) (s : Settings) (persisted : Option User) :
    (initialState persisted).settings = defaultSettings
      ∧ defaultSettings.disable_signup = false
      ∧ defaultSettings.autoconfirm = false
      ∧ defaultSettings.external.email = true
      ∧ (defaultSettings.external.bitbucket = false
          ∧ defaultSettings.external.facebook = false
          ∧ defaultSettings.external.github = false
          ∧ defaultSettings.external.gitlab = false
          ∧ defaultSettings.external.google = false)
      ∧ (resolveSettings st s).settings = s
      ∧ (resolveSettings st s).user = st.user
      ∧ (resolveSettings st s).param = st.param :=
  ⟨rfl, rfl, rfl, rfl, ⟨rfl, rfl, rfl, rfl, rfl⟩, rfl, rfl, rfl⟩

/-- C2: logout, update-user and get-fresh-token each throw the
"no current user" error synchronously (no events, in particular no backend
call) when no user is set; when a user is set, no synchronous throw occurs
and the corresponding backend call is the first emitted event, whatever the
backend then does. -/
theorem C2_preconditions (st : HookState) (u : User)
    (bu : Except String User) (bj : Except String String)
    (bl : Except String Unit) :
    (st.user = none →
        updateUser st bu = Outcome.syncThrow errors.noUserFound
          ∧ getFreshJWT st bj = Outcome.syncThrow errors.noUserFound
          ∧ logoutUser st bl = Outcome.syncThrow errors.noUserFound
          ∧ (updateUser st bu).events = []
          ∧ (getFreshJWT st bj).events = []
          ∧ (logoutUser st bl).events = [])
      ∧ (st.user = some u →
          (updateUser st bu).isSyncThrow = false
            ∧ (getFreshJWT st bj).isSyncThrow = false
            ∧ (logoutUser st bl).isSyncThrow = false
            ∧ (updateUser st bu).events.head? = some Event.backendUpdate
            ∧ (getFreshJWT st bj).events.head? = some Event.backendJwt
            ∧ (logoutUser st bl).events.head? = some Event.backendLogout) := by
  constructor
  · intro h
    simp [updateUser, getFreshJWT, logoutUser, h, Outcome.events]
  · intro h
    cases bu <;> cases bj <;> cases bl <;>
      simp [updateUser, getFreshJWT, logoutUser, h, Outcome.events,
        Outcome.isSyncThrow, setUserEvents]

/-- Witness for C2 at concrete inputs: logged-out state throws the
"no current user" error from update-user; logged-in state does not throw
synchronously from logout. -/
theorem C2_witness :
    updateUser (initialState none) (Except.ok uSample)
        = Outcome.syncThrow errors.noUserFound
      ∧ (logoutUser (initialState (some uSample)) (Except.ok ())).isSyncThrow
        = false :=
  ⟨((C2_preconditions (initialState none) uSample (Except.ok uSample)
      (Except.ok "t") (Except.ok ())).1 rfl).1,
   ((C2_preconditions (initialState (some uSample)) uSample (Except.ok uSample)
      (Except.ok "t") (Except.ok ())).2 rfl).2.2.1⟩

/-- C4: when a user is set, successful logout emits exactly the backend
logout followed by the single slot write and the single listener call with
the absent value, and the final state has no user; when the backend logout
rejects, nothing is cleared and no listener fires — so clearing happens only
after the backend resolves. -/
theorem C4_logout (st : HookState) (u : User) (hu : st.user = some u) :
    logoutUser st (Except.ok ())
        = Outcome.resolved
            [Event.backendLogout, Event.setSlot none, Event.listener none]
            { st with user := none } none
      ∧ countListener (logoutUser st (Except.ok ())).events = 1
      ∧ (∀ e : String, logoutUser st (Except.error e)
          = Outcome.rejected [Event.backendLogout] st e
            ∧ countListener (logoutUser st (Except.error e)).events = 0) := by
  refine ⟨?_, ?_, ?_⟩
  · simp [logoutUser, hu, setUserEvents]
  · simp [logoutUser, hu, setUserEvents, countListener, Outcome.events,
      List.countP, List.countP.go]
  · intro e
    constructor
    · simp [logoutUser, hu]
    · simp [logoutUser, hu, countListener, Outcome.events, List.countP,
        List.countP.go]

/-- Witness for C4 at a concrete logged-in state. -/
theorem C4_witness :
    logoutUser (initialState (some uSample)) (Except.ok ())
      = Outcome.resolved
          [Event.backendLogout, Event.setSlot none, Event.listener none]
          { initialState (some uSample) with user := none } none :=
  (C4_logout (initialState (some uSample)) uSample rfl).1

/-- Counterexample to C1 as stated: `recoverAccount` (index2.tsx lines
210-214) is a bare delegation — at a concrete input the backend resolves
with a user, yet the outcome carries no slot write and no listener call,
and the state's user slot is left unchanged (still absent), contradicting
"routes its resulting User-or-absent value through the single state
setter, which ... invokes the ... listener with that new value". -/
theorem C1_counterexample :
    recoverAccount (initialState none) "tok123" none (Except.ok uSample)
        = Outcome.resolved [Event.backendRecover "tok123" none]
            (initialState none) uSample
      ∧ countListener
          (recoverAccount (initialState none) "tok123" none
            (Except.ok uSample)).events = 0
      ∧ (initialState none).user = none :=
  ⟨rfl, rfl, rfl⟩

/-- C1 (amended): every facade operation that changes identity state —
signup, login, logout, update user, and the router's token-confirmation
flows (confirmation, invite, email_change) — routes its resulting
User-or-absent value through the single state setter, which writes the
slot, invokes the auth-change listener exactly once with that value, and
yields the same value; `recoverAccount`, however, is a bare delegation: it
resolves with the backend's user without touching the slot or the
listener. -/
theorem C1_amended (st : HookState) (email pw tok : String) (rem : Bool)
    (remOpt : Option Bool) (u u0 cu au : User)
    (hu : st.user = some u0) :
    signupUser st email pw (Except.ok u)
        = Outcome.resolved
            [Event.backendSignup email pw, Event.setSlot (some u),
              Event.listener (some u)]
            { st with user := some u } (some u)
      ∧ loginUser st email pw rem (Except.ok u)
        = Outcome.resolved
            [Event.backendLogin email pw rem, Event.setSlot (some u),
              Event.listener (some u)]
            { st with user := some u } (some u)
      ∧ updateUser st (Except.ok u)
        = Outcome.resolved
            [Event.backendUpdate, Event.setSlot (some u),
              Event.listener (some u)]
            { st with user := some u } (some u)
      ∧ logoutUser st (Except.ok ())
        = Outcome.resolved
            [Event.backendLogout, Event.setSlot none, Event.listener none]
            { st with user := none } none
      ∧ (∀ t tok2 loc2,
          parseLocation loc2 = FlowSignal.flow t tok2 →
          (t = TokenType.confirmation ∨ t = TokenType.invite
            ∨ t = TokenType.email_change) →
          (runRoutes loc2 cu au).events
              = [Event.backendConfirm tok2, Event.setSlot (some cu),
                  Event.listener (some cu)]
            ∧ (runRoutes loc2 cu au).userUpdate = some (some cu)
            ∧ countListener (runRoutes loc2 cu au).events = 1)
      ∧ recoverAccount st tok remOpt (Except.ok u)
        = Outcome.resolved [Event.backendRecover tok remOpt] st u
      ∧ countListener
          (recoverAccount st tok remOpt (Except.ok u)).events = 0 := by
  refine ⟨?_, ?_, ?_, ?_, ?_, ?_, ?_⟩
  · simp [signupUser, setUserEvents]
  · simp [loginUser, setUserEvents]
  · simp [updateUser, hu, setUserEvents]
  · simp [logoutUser, hu, setUserEvents]
  · intro t tok2 loc2 hp ht
    rcases ht with rfl | rfl | rfl <;>
      simp [runRoutes, hp, setUserEvents, countListener, List.countP,
        List.countP.go]
  · simp [recoverAccount]
  · simp [recoverAccount, countListener, Outcome.events, List.countP,
      List.countP.go]

/-- Witness for C1 (amended) at concrete inputs: the signup conjunct at the
sample users, and the router conjunct at the invite location
`#invite_token=abc`. -/
theorem C1_amended_witness :
    (signupUser (initialState (some uSample2)) "a@b.co" "pw"
        (Except.ok uSample)
      = Outcome.resolved
          [Event.backendSignup "a@b.co" "pw", Event.setSlot (some uSample),
            Event.listener (some uSample)]
          { initialState (some uSample2) with user := some uSample }
          (some uSample))
      ∧ (runRoutes "#invite_token=abc" uSample uSample2).events
        = [Event.backendConfirm "abc", Event.setSlot (some uSample),
            Event.listener (some uSample)] :=
  ⟨(C1_amended (initialState (some uSample2)) "a@b.co" "pw" "abc" true none
      uSample uSample2 uSample uSample2 rfl).1,
   ((C1_amended (initialState (some uSample2)) "a@b.co" "pw" "abc" true none
      uSample uSample2 uSample uSample2 rfl).2.2.2.2.1
      TokenType.invite "abc" "#invite_token=abc" (by decide)
      (Or.inr (Or.inl rfl))).1⟩

/-- Counterexample to C3 as stated: with a logged-in user holding a live
access token, an authenticated GET whose request options carry their own
`headers` key is delegated WITHOUT the bearer Authorization header and
without the JSON content-type — `Object.assign` merges top-level keys, so
the caller's headers object replaces the defaults wholesale. -/
theorem C3_counterexample :
    authedFetch.get (initialState (some uSample)) "/api/data" customHeaderObj
        = Outcome.resolved
            [Event.networkFetch "/api/data" "GET" [("Accept", "text/plain")]]
            (initialState (some uSample)) FetchResult.raw
      ∧ lookupHeader [("Accept", "text/plain")] "Authorization" = none
      ∧ liveAccessToken (initialState (some uSample)).user = some "jwt123" :=
  ⟨rfl, rfl, rfl⟩

/-- C3 (amended): an authenticated fetch with no live access token throws
the "no token found" error synchronously, with no network event; with a
live token and options that carry no `headers` of their own, the request
goes out with the default headers — bearer Authorization and JSON
content-type — and the response is JSON-parsed; options that do carry a
`headers` key replace the defaults wholesale (the bearer header is not
added). get/post/put/delete all route through the same generic fetch. -/
theorem C3_amended (st : HookState) (endpoint method : String)
    (obj : RequestObj) :
    (liveAccessToken st.user = none →
        genericAuthedFetch st method endpoint obj
            = Outcome.syncThrow errors.noTokenFound
          ∧ (genericAuthedFetch st method endpoint obj).events = [])
      ∧ (∀ at_, liveAccessToken st.user = some at_ → obj.headers = none →
          genericAuthedFetch st method endpoint obj
              = Outcome.resolved
                  [Event.networkFetch endpoint (obj.method.getD method)
                    (defaultHeaders at_)]
                  st FetchResult.jsonParsed
            ∧ lookupHeader (defaultHeaders at_) "Authorization"
              = some ("Bearer " ++ at_)
            ∧ lookupHeader (defaultHeaders at_) "Content-Type"
              = some "application/json")
      ∧ (∀ at_ hs, liveAccessToken st.user = some at_ → obj.headers = some hs →
          genericAuthedFetch st method endpoint obj
            = Outcome.resolved
                [Event.networkFetch endpoint (obj.method.getD method) hs] st
                (if lookupHeader hs "Content-Type" == some "application/json"
                 then FetchResult.jsonParsed else FetchResult.raw))
      ∧ authedFetch.get st endpoint obj = genericAuthedFetch st "GET" endpoint obj
      ∧ authedFetch.post st endpoint obj = genericAuthedFetch st "POST" endpoint obj
      ∧ authedFetch.put st endpoint obj = genericAuthedFetch st "PUT" endpoint obj
      ∧ authedFetch.delete st endpoint obj
        = genericAuthedFetch st "DELETE" endpoint obj := by
  refine ⟨?_, ?_, ?_, rfl, rfl, rfl, rfl⟩
  · intro h
    match hst : st.user with
    | none => simp [genericAuthedFetch, hst, Outcome.events]
    | some usr =>
        match htk : usr.token with
        | none => simp [genericAuthedFetch, hst, htk, Outcome.events]
        | some tk =>
            match hat : tk.access_token with
            | none => simp [genericAuthedFetch, hst, htk, hat, Outcome.events]
            | some s =>
                simp [liveAccessToken, hst, htk, hat] at h
                simp [genericAuthedFetch, hst, htk, hat, h, Outcome.events]
  · intro at_ h hobj
    match hst : st.user with
    | none => simp [liveAccessToken, hst] at h
    | some usr =>
        match htk : usr.token with
        | none => simp [liveAccessToken, hst, htk] at h
        | some tk =>
            match hat : tk.access_token with
            | none => simp [liveAccessToken, hst, htk, hat] at h
            | some s =>
                simp only [liveAccessToken, hst, htk, hat] at h
                by_cases hs : s.data.isEmpty = true
                · rw [if_pos hs] at h
                  exact absurd h (by simp)
                · rw [if_neg hs] at h
                  obtain rfl : s = at_ := by injection h
                  refine ⟨?_, rfl, rfl⟩
                  simp [genericAuthedFetch, hst, htk, hat, hs, hobj,
                    defaultHeaders, lookupHeader]
  · intro at_ hs0 h hobj
    match hst : st.user with
    | none => simp [liveAccessToken, hst] at h
    | some usr =>
        match htk : usr.token with
        | none => simp [liveAccessToken, hst, htk] at h
        | some tk =>
            match hat : tk.access_token with
            | none => simp [liveAccessToken, hst, htk, hat] at h
            | some s =>
                simp only [liveAccessToken, hst, htk, hat] at h
                by_cases hse : s.data.isEmpty = true
                · rw [if_pos hse] at h
                  exact absurd h (by simp)
                · simp [genericAuthedFetch, hst, htk, hat, hse, hobj]

/-- Witness for C3 (amended): a logged-out state throws "no token found";
the logged-in sample user with empty options gets the default headers. -/
theorem C3_amended_witness :
    genericAuthedFetch (initialState none) "GET" "/api" RequestObj.empty
        = Outcome.syncThrow errors.noTokenFound
      ∧ genericAuthedFetch (initialState (some uSample)) "GET" "/api"
          RequestObj.empty
        = Outcome.resolved
            [Event.networkFetch "/api" "GET" (defaultHeaders "jwt123")]
            (initialState (some uSample)) FetchResult.jsonParsed :=
  ⟨((C3_amended (initialState none) "/api" "GET" RequestObj.empty).1 rfl).1,
   (((C3_amended (initialState (some uSample)) "/api" "GET"
      RequestObj.empty).2.1) "jwt123" rfl rfl).1⟩

/-- C5: running the flow router a second time after a simulated reload —
the second run sees the visible location left by the first, since the
router strips consumed parameters regardless of branch — never applies a
confirmation token twice: across the two runs the backend
token-confirmation entry point is called at most once, for every initial
location and backend results. -/
theorem C5_router_idempotent (loc : String) (c1 a1 c2 a2 : User) :
    countConfirm (runRoutes loc c1 a1).events
        + countConfirm
            (runRoutes (runRoutes loc c1 a1).newLoc c2 a2).events ≤ 1 := by
  cases hp : parseLocation loc with
  | nothing =>
      simp [runRoutes, hp, countConfirm]
  | accessDenied =>
      simp [runRoutes, hp, parseLocation_empty, countConfirm]
  | flow t tok =>
      cases t <;>
        simp [runRoutes, hp, parseLocation_empty, countConfirm,
          setUserEvents, List.countP, List.countP.go]

/-- C6: a location with no recognized flow marker parses to the default
TokenParam (type and token both absent), and the mount effect's guard
(`if (param.token || param.error)`, index2.tsx lines 159-167) then leaves
the stored reactive TokenParam at the default — no state update occurs,
and the router calls the state setter with nothing. -/
theorem C6_no_marker (loc : String) (cu au : User)
    (h : hasRecognizedMarker loc = false) :
    (runRoutes loc cu au).param = defaultParam
      ∧ mountParam (runRoutes loc cu au).param = defaultParam
      ∧ (runRoutes loc cu au).userUpdate = none
      ∧ (runRoutes loc cu au).events = []
      ∧ paramGuard defaultParam = false := by
  have hp := parseLocation_of_no_marker loc h
  refine ⟨?_, ?_, ?_, ?_, rfl⟩ <;>
    simp [runRoutes, hp, mountParam, paramGuard, truthyStr, defaultParam]

/-- Witness for C6 at the markerless location `/dashboard`. -/
theorem C6_witness :
    (runRoutes "/dashboard" uSample uSample2).param = defaultParam
      ∧ mountParam (runRoutes "/dashboard" uSample uSample2).param
        = defaultParam :=
  ⟨(C6_no_marker "/dashboard" uSample uSample2 (by decide)).1,
   (C6_no_marker "/dashboard" uSample uSample2 (by decide)).2.1⟩

/-- C7: a location whose auth parameters carry `error=access_denied` (with
whatever error description follows) parses to a TokenParam with type
absent, error "access_denied" and status 403, and the router emits no
backend event and no state-setter call for that flow. -/
theorem C7_access_denied (loc : String) (cu au : User)
    (h : strStartsWith loc "#error=access_denied" = true) :
    (runRoutes loc cu au).param
        = { token := none, type := none, error := some "access_denied",
            status := some 403 }
      ∧ (runRoutes loc cu au).events = []
      ∧ (runRoutes loc cu au).userUpdate = none := by
  have hp : parseLocation loc = FlowSignal.accessDenied := by
    simp [parseLocation, h]
  refine ⟨?_, ?_, ?_⟩ <;> simp [runRoutes, hp, signalToParam]

/-- Witness for C7 at a concrete access-denied location with an error
description. -/
theorem C7_witness :
    (runRoutes "#error=access_denied&error_description=signups+disabled"
        uSample uSample2).param
      = { token := none, type := none, error := some "access_denied",
          status := some 403 } :=
  (C7_access_denied "#error=access_denied&error_description=signups+disabled"
    uSample uSample2 (by decide)).1

/-- Counterexample to C9 as stated: setup does NOT succeed exactly on
syntactically valid absolute URLs. The protocol-relative `//x.io` is not an
absolute URL (it has no scheme) yet passes `validateUrl` and setup; the
absolute URL `http://localhost` is rejected by `validateUrl` (its regex
requires a dotted host with an alphabetic TLD and excludes private
addresses), so setup throws on it. -/
theorem C9_counterexample :
    (validateUrl "//x.io" = true
        ∧ isAbsoluteUrlSpec "//x.io" = false
        ∧ providerSetup "//x.io" = Except.ok ())
      ∧ (validateUrl "http://localhost" = false
        ∧ isAbsoluteUrlSpec "http://localhost" = true
        ∧ providerSetup "http://localhost"
          = Except.error ("invalid netlify instance URL: http://localhost"
              ++ ". Please check the docs for proper usage or file an issue.")) :=
  ⟨⟨by decide, by decide, by rfl⟩, ⟨by decide, by decide, by rfl⟩⟩

/-- C9 (amended): setup of the provider succeeds exactly when the URL is
non-empty and matches the source's URL regex (`validateUrl`); this
criterion differs from "syntactically valid absolute URL" in both
directions (it accepts scheme-less protocol-relative URLs and rejects
absolute URLs with dotless or private-range hosts), and the fatal error is
raised at setup time, before any state exists. Typical https URLs with
dotted hosts pass. -/
theorem C9_amended (url : String) :
    (providerSetup url = Except.ok ()
        ↔ (url.data.isEmpty = false ∧ validateUrl url = true))
      ∧ validateUrl "https://myapp.netlify.com" = true
      ∧ providerSetup "https://myapp.netlify.com" = Except.ok ()
      ∧ validateUrl "" = false
      ∧ providerSetup ""
        = Except.error ("invalid netlify instance URL: "
            ++ ". Please check the docs for proper usage or file an issue.") := by
  refine ⟨?_, by decide, by rfl, by decide, by rfl⟩
  unfold providerSetup
  by_cases h1 : url.data.isEmpty = true <;>
    by_cases h2 : validateUrl url = true <;>
      simp [h1, h2]

end RNI
